import Mathlib

/-!
Shallow embedding of the `PreciseTime` library (`include/PreciseTime.h`,
`include/PreciseTime.cpp`): a static class providing a 64-bit elapsed-time
counter on top of a narrow hardware counter, with three mutually exclusive
compile-time backends:

* `ESP32`  — a hardware timer interrupt increments a wide counter directly
  (`timerISR`, `time_fct_micros`);
* `ESP8266` — a free-running 32-bit `micros()` counter plus an overflow
  interrupt (`microsOverflowISR`, `overflow_counter`, `last_micros`,
  `total_micros`, reconstruction in `updateTime`);
* `Soft`   — the generic fallback: a 32-bit `millis()` counter polled by
  `updateSoftwareTimer`, accumulating deltas into `total_millis`.

Machine integers are modelled as `Nat` reduced modulo `2^32` / `2^64` at
exactly the points where the C types (`uint32_t`, `uint64_t`) wrap.  The
hardware counter samples returned by `micros()` / `millis()` are passed to
each operation as an explicit argument (a `uint32_t` value, reduced mod
`2^32` on entry).  Stateful operations return the new state; reads return a
value–state pair.  `double` results are modelled exactly as rationals.
-/

namespace PreciseTime

/-- Modulus of the 32-bit narrow counters (`uint32_t`). -/
def U32 : Nat := 2 ^ 32

/-- Modulus of the 64-bit wide counters (`uint64_t`). -/
def U64 : Nat := 2 ^ 64

/-- `UINT32_MAX` from the C source. -/
def UINT32_MAX : Nat := U32 - 1

/-! ## ESP32 backend (hardware-tick accumulator) -/

namespace ESP32

/-- Static state of the ESP32 backend: `initialized` and the wide counter
`time_fct_micros` incremented by the timer interrupt.  (The `hw_timer_t*`
handle and the mux are hardware/locking artefacts with no arithmetic
content and are not part of the model.) -/
structure State where
  initialized : Bool
  time_fct_micros : Nat
deriving DecidableEq

/-- Static initializers: `initialized = false`, `time_fct_micros = 0`. -/
def initialState : State := { initialized := false, time_fct_micros := 0 }

/-- `timerISR()`: increments `time_fct_micros` (a `uint64_t`, so mod `2^64`). -/
def timerISR (s : State) : State :=
  { s with time_fct_micros := (s.time_fct_micros + 1) % U64 }

/-- `begin()` on ESP32: no-op if initialized, otherwise arms the hardware
timer (no modelled field) and sets `initialized = true`. -/
def begin (s : State) : State :=
  if s.initialized then s else { s with initialized := true }

/-- `getMicroseconds()` on ESP32: 0 if not initialized, else the wide
counter read under the critical section. -/
def getMicroseconds (s : State) : Nat :=
  if !s.initialized then 0 else s.time_fct_micros

/-- `getMilliseconds()`: `getMicroseconds() / 1000ULL`. -/
def getMilliseconds (s : State) : Nat :=
  getMicroseconds s / 1000

/-- `getSeconds()`: `getMicroseconds() / 1000000ULL`. -/
def getSeconds (s : State) : Nat :=
  getMicroseconds s / 1000000

/-- `getSecondsPrecise()`: `(double)getMicroseconds() / 1000000.0`,
modelled exactly as a rational. -/
def getSecondsPrecise (s : State) : ℚ :=
  (getMicroseconds s : ℚ) / 1000000

/-- `update()` on ESP32 is empty (both `#if` branches are skipped). -/
def update (s : State) : State := s

/-- `isInitialized()`. -/
def isInitialized (s : State) : Bool := s.initialized

/-- `reset()` on ESP32: zeroes `time_fct_micros` under the critical
section; touches nothing else. -/
def reset (s : State) : State :=
  { s with time_fct_micros := 0 }

end ESP32

/-! ## ESP8266 backend (overflow-interrupt widening accumulator) -/

namespace ESP8266

/-- Static state of the ESP8266 backend. -/
structure State where
  initialized : Bool
  overflow_counter : Nat
  last_micros : Nat
  total_micros : Nat
deriving DecidableEq

/-- Static initializers: all fields zero / false. -/
def initialState : State :=
  { initialized := false, overflow_counter := 0, last_micros := 0, total_micros := 0 }

/-- `microsOverflowISR()`: `overflow_counter++` (a `uint32_t`, mod `2^32`). -/
def microsOverflowISR (s : State) : State :=
  { s with overflow_counter := (s.overflow_counter + 1) % U32 }

/-- `updateTime()`: samples `micros()` (argument `c`, a `uint32_t`), locally
bumps the high part if the sample went backwards, and reconstructs
`total_micros = ((uint64_t)high_part << 32) | current_micros`. -/
def updateTime (s : State) (c : Nat) : State :=
  if !s.initialized then s
  else
    let current_micros := c % U32
    let high_part := s.overflow_counter
    let high_part := if current_micros < s.last_micros then (high_part + 1) % U32 else high_part
    { s with total_micros := (high_part <<< 32) ||| current_micros,
             last_micros := current_micros }

/-- `begin()` on ESP8266: no-op if initialized; otherwise captures
`last_micros = micros()`, zeroes `total_micros` and `overflow_counter`,
arms timer1 (no modelled field) and sets `initialized = true`. -/
def begin (s : State) (c : Nat) : State :=
  if s.initialized then s
  else { initialized := true, overflow_counter := 0,
         last_micros := c % U32, total_micros := 0 }

/-- `getMicroseconds()` on ESP8266: 0 if not initialized; else runs
`updateTime()` and returns `total_micros`. -/
def getMicroseconds (s : State) (c : Nat) : Nat × State :=
  if !s.initialized then (0, s)
  else
    let s1 := updateTime s c
    (s1.total_micros, s1)

/-- `getMilliseconds()`: `getMicroseconds() / 1000ULL`. -/
def getMilliseconds (s : State) (c : Nat) : Nat × State :=
  let r := getMicroseconds s c
  (r.1 / 1000, r.2)

/-- `getSeconds()`: `getMicroseconds() / 1000000ULL`. -/
def getSeconds (s : State) (c : Nat) : Nat × State :=
  let r := getMicroseconds s c
  (r.1 / 1000000, r.2)

/-- `getSecondsPrecise()`: `(double)getMicroseconds() / 1000000.0`,
modelled exactly as a rational. -/
def getSecondsPrecise (s : State) (c : Nat) : ℚ × State :=
  let r := getMicroseconds s c
  ((r.1 : ℚ) / 1000000, r.2)

/-- `update()` on ESP8266 calls `updateTime()`. -/
def update (s : State) (c : Nat) : State := updateTime s c

/-- `isInitialized()`. -/
def isInitialized (s : State) : Bool := s.initialized

/-- `reset()` on ESP8266: `last_micros = micros(); total_micros = 0;
overflow_counter = 0;` — note there is no `initialized` guard. -/
def reset (s : State) (c : Nat) : State :=
  { s with last_micros := c % U32, total_micros := 0, overflow_counter := 0 }

end ESP8266

/-! ## Generic backend (polling widening accumulator, `millis()` based) -/

namespace Soft

/-- Static state of the polling backend. -/
structure State where
  initialized : Bool
  last_millis : Nat
  total_millis : Nat
deriving DecidableEq

/-- Static initializers: all fields zero / false. -/
def initialState : State :=
  { initialized := false, last_millis := 0, total_millis := 0 }

/-- The `delta` computation inside `updateSoftwareTimer()`:
`current - last_millis` when `current >= last_millis`, else
`(UINT32_MAX - last_millis) + current + 1` (exactly one wrap assumed). -/
def delta (last current : Nat) : Nat :=
  if last ≤ current then current - last
  else (UINT32_MAX - last) + current + 1

/-- `updateSoftwareTimer()`: samples `millis()` (argument `c`, a
`uint32_t`), adds the wrap-aware delta to `total_millis` (a `uint64_t`),
and stores the new sample. -/
def updateSoftwareTimer (s : State) (c : Nat) : State :=
  if !s.initialized then s
  else
    let current := c % U32
    { s with total_millis := (s.total_millis + delta s.last_millis current) % U64,
             last_millis := current }

/-- `begin()` on the polling backend: no-op if initialized; otherwise
captures `last_millis = millis()`, zeroes `total_millis`, sets
`initialized = true`. -/
def begin (s : State) (c : Nat) : State :=
  if s.initialized then s
  else { initialized := true, last_millis := c % U32, total_millis := 0 }

/-- `getMicroseconds()` on the polling backend: 0 if not initialized;
else runs `updateSoftwareTimer()` and returns `total_millis * 1000ULL`
(a `uint64_t` product, mod `2^64`). -/
def getMicroseconds (s : State) (c : Nat) : Nat × State :=
  if !s.initialized then (0, s)
  else
    let s1 := updateSoftwareTimer s c
    ((s1.total_millis * 1000) % U64, s1)

/-- `getMilliseconds()`: `getMicroseconds() / 1000ULL`. -/
def getMilliseconds (s : State) (c : Nat) : Nat × State :=
  let r := getMicroseconds s c
  (r.1 / 1000, r.2)

/-- `getSeconds()`: `getMicroseconds() / 1000000ULL`. -/
def getSeconds (s : State) (c : Nat) : Nat × State :=
  let r := getMicroseconds s c
  (r.1 / 1000000, r.2)

/-- `getSecondsPrecise()`: `(double)getMicroseconds() / 1000000.0`,
modelled exactly as a rational. -/
def getSecondsPrecise (s : State) (c : Nat) : ℚ × State :=
  let r := getMicroseconds s c
  ((r.1 : ℚ) / 1000000, r.2)

/-- `update()` on the polling backend calls `updateSoftwareTimer()`. -/
def update (s : State) (c : Nat) : State := updateSoftwareTimer s c

/-- `isInitialized()`. -/
def isInitialized (s : State) : Bool := s.initialized

/-- `reset()` on the polling backend: `last_millis = millis();
total_millis = 0;` — no `initialized` guard. -/
def reset (s : State) (c : Nat) : State :=
  { s with last_millis := c % U32, total_millis := 0 }

end Soft

/-! ## Shared formatting surface (pure, backend-independent) -/

/-! ## Mainline operation sequences (for the frame properties) -/

/-- One mainline (non-`begin`, non-`reset`) operation: a manual `update()`
or one of the reads, together with the hardware counter sample it
observes. -/
inductive MainOp where
  | update (c : Nat)
  | readMicros (c : Nat)
  | readMillis (c : Nat)
  | readSeconds (c : Nat)
deriving DecidableEq

/-- State effect of one mainline operation on the ESP32 backend (reads do
not modify the state there, and `update()` compiles to an empty body). -/
def ESP32.runOp (s : ESP32.State) : MainOp → ESP32.State
  | .update _ => ESP32.update s
  | .readMicros _ => s
  | .readMillis _ => s
  | .readSeconds _ => s

/-- State effect of a sequence of mainline operations, ESP32 backend. -/
def ESP32.runOps (s : ESP32.State) (ops : List MainOp) : ESP32.State :=
  ops.foldl ESP32.runOp s

/-- State effect of one mainline operation on the ESP8266 backend. -/
def ESP8266.runOp (s : ESP8266.State) : MainOp → ESP8266.State
  | .update c => ESP8266.update s c
  | .readMicros c => (ESP8266.getMicroseconds s c).2
  | .readMillis c => (ESP8266.getMilliseconds s c).2
  | .readSeconds c => (ESP8266.getSeconds s c).2

/-- State effect of a sequence of mainline operations, ESP8266 backend. -/
def ESP8266.runOps (s : ESP8266.State) (ops : List MainOp) : ESP8266.State :=
  ops.foldl ESP8266.runOp s

/-- State effect of one mainline operation on the polling backend. -/
def Soft.runOp (s : Soft.State) : MainOp → Soft.State
  | .update c => Soft.update s c
  | .readMicros c => (Soft.getMicroseconds s c).2
  | .readMillis c => (Soft.getMilliseconds s c).2
  | .readSeconds c => (Soft.getSeconds s c).2

/-- State effect of a sequence of mainline operations, polling backend. -/
def Soft.runOps (s : Soft.State) (ops : List MainOp) : Soft.State :=
  ops.foldl Soft.runOp s

/-- Result record for `getFormattedTime`'s four out-parameters. -/
structure FormattedTime where
  days : Nat
  hours : Nat
  minutes : Nat
  seconds : Nat
deriving DecidableEq

/-- `getFormattedTime(days, hours, minutes, seconds)`: decomposition of
the total elapsed seconds (the value of `getSeconds()`) by 86400, 3600
and 60, exactly as in the source. -/
def getFormattedTime (total_seconds : Nat) : FormattedTime :=
  let days := total_seconds / 86400
  let remaining := total_seconds % 86400
  let hours := remaining / 3600
  let remaining := remaining % 3600
  let minutes := remaining / 60
  let seconds := remaining % 60
  { days := days, hours := hours, minutes := minutes, seconds := seconds }

/-- Semantics of the `%02lu` conversion in `snprintf`: decimal digits,
zero-padded on the left to a minimum width of two. -/
def pad2 (n : Nat) : String :=
  if n < 10 then "0" ++ toString n else toString n

/-- `getFormattedString()`: `"%llu jours, %02lu:%02lu:%02lu"` when
`days > 0`, else `"%02lu:%02lu:%02lu"`.  (The 64-byte buffer never
truncates: the longest possible result is 36 characters.) -/
def getFormattedString (total_seconds : Nat) : String :=
  let t := getFormattedTime total_seconds
  if t.days > 0 then
    toString t.days ++ " jours, " ++ pad2 t.hours ++ ":" ++ pad2 t.minutes ++ ":" ++ pad2 t.seconds
  else
    pad2 t.hours ++ ":" ++ pad2 t.minutes ++ ":" ++ pad2 t.seconds

/-! ## Helper lemmas -/

/-- For a low part below `2^32`, the reconstruction
`(high_part << 32) | current` is exactly `high_part * 2^32 + current`. -/
theorem shiftOr_eq (hp c : Nat) (hc : c < U32) : (hp <<< 32) ||| c = hp * U32 + c := by
  have hc' : c < 2 ^ 32 := hc
  simp only [U32, Nat.shiftLeft_eq, Nat.mul_comm hp (2 ^ 32)]
  exact (Nat.mul_add_lt_is_or hc' hp).symm

/-- A burst of `k` overflow interrupts adds `k` to `overflow_counter`
(as long as the 32-bit counter does not itself wrap). -/
theorem microsOverflowISR_iterate (s : ESP8266.State) (k : Nat)
    (h : s.overflow_counter + k < U32) :
    ESP8266.microsOverflowISR^[k] s =
      { s with overflow_counter := s.overflow_counter + k } := by
  induction k with
  | zero => simp
  | succ k ih =>
    have hk : s.overflow_counter + k < U32 := by omega
    rw [Function.iterate_succ_apply', ih hk, ESP8266.microsOverflowISR]
    have h1 : s.overflow_counter + (k + 1) < U32 := h
    simp [Nat.add_assoc, Nat.mod_eq_of_lt h1]

/-- A burst of `k` ESP32 timer interrupts adds `k` to `time_fct_micros`
(as long as the 64-bit counter does not wrap). -/
theorem timerISR_iterate (s : ESP32.State) (k : Nat)
    (h : s.time_fct_micros + k < U64) :
    ESP32.timerISR^[k] s =
      { s with time_fct_micros := s.time_fct_micros + k } := by
  induction k with
  | zero => simp
  | succ k ih =>
    have hk : s.time_fct_micros + k < U64 := by omega
    rw [Function.iterate_succ_apply', ih hk, ESP32.timerISR]
    have h1 : s.time_fct_micros + (k + 1) < U64 := h
    simp [Nat.add_assoc, Nat.mod_eq_of_lt h1]

/-- Arithmetic characterisation of `updateTime` on an initialized state
with an in-range sample. -/
theorem updateTime_eq (s : ESP8266.State) (c : Nat)
    (hinit : s.initialized = true) (hc : c < U32) :
    ESP8266.updateTime s c =
      { s with
        total_micros :=
          (if c < s.last_micros then (s.overflow_counter + 1) % U32
           else s.overflow_counter) * U32 + c,
        last_micros := c } := by
  rw [ESP8266.updateTime]
  simp only [hinit, Bool.not_true, Bool.false_eq_true, if_false]
  rw [Nat.mod_eq_of_lt hc, shiftOr_eq _ c hc]

/-- Arithmetic characterisation of `updateSoftwareTimer` on an
initialized state. -/
theorem updateSoftwareTimer_eq (s : Soft.State) (c : Nat)
    (hinit : s.initialized = true) :
    Soft.updateSoftwareTimer s c =
      { s with
        total_millis := (s.total_millis + Soft.delta s.last_millis (c % U32)) % U64,
        last_millis := c % U32 } := by
  rw [Soft.updateSoftwareTimer]
  simp only [hinit, Bool.not_true, Bool.false_eq_true, if_false]

/-- Folding a step function over a list from a fixed point stays there. -/
theorem foldl_fixed {α β : Type} (f : α → β → α) (s : α)
    (h : ∀ op, f s op = s) (l : List β) : l.foldl f s = s := by
  induction l with
  | nil => rfl
  | cons op l ih => rw [List.foldl_cons, h op, ih]

/-! ## Claim theorems -/

/-- Claim C3: before the first `begin()` call (any state whose
`initialized` flag is still false, in particular the start-up state of
the static initializers), every read — `getMicroseconds`,
`getMilliseconds`, `getSeconds`, `getSecondsPrecise` — returns 0 and
`isInitialized()` returns false, for all three backends. -/
theorem C3_uninitialized_reads_zero :
    (∀ s : ESP32.State, s.initialized = false →
      ESP32.getMicroseconds s = 0 ∧ ESP32.getMilliseconds s = 0 ∧
      ESP32.getSeconds s = 0 ∧ ESP32.getSecondsPrecise s = 0 ∧
      ESP32.isInitialized s = false)
  ∧ (∀ (s : ESP8266.State) (c : Nat), s.initialized = false →
      (ESP8266.getMicroseconds s c).1 = 0 ∧ (ESP8266.getMilliseconds s c).1 = 0 ∧
      (ESP8266.getSeconds s c).1 = 0 ∧ (ESP8266.getSecondsPrecise s c).1 = 0 ∧
      ESP8266.isInitialized s = false)
  ∧ (∀ (s : Soft.State) (c : Nat), s.initialized = false →
      (Soft.getMicroseconds s c).1 = 0 ∧ (Soft.getMilliseconds s c).1 = 0 ∧
      (Soft.getSeconds s c).1 = 0 ∧ (Soft.getSecondsPrecise s c).1 = 0 ∧
      Soft.isInitialized s = false)
  ∧ ESP32.initialState.initialized = false
  ∧ ESP8266.initialState.initialized = false
  ∧ Soft.initialState.initialized = false := by
  refine ⟨?_, ?_, ?_, rfl, rfl, rfl⟩
  · intro s h
    simp [ESP32.getMicroseconds, ESP32.getMilliseconds, ESP32.getSeconds,
      ESP32.getSecondsPrecise, ESP32.isInitialized, h]
  · intro s c h
    simp [ESP8266.getMicroseconds, ESP8266.getMilliseconds, ESP8266.getSeconds,
      ESP8266.getSecondsPrecise, ESP8266.isInitialized, h]
  · intro s c h
    simp [Soft.getMicroseconds, Soft.getMilliseconds, Soft.getSeconds,
      Soft.getSecondsPrecise, Soft.isInitialized, h]

/-- Witness for C3 at the start-up states with a concrete counter sample. -/
theorem C3_uninitialized_reads_zero_witness :
    ESP32.getMicroseconds ESP32.initialState = 0
  ∧ (ESP8266.getMicroseconds ESP8266.initialState 7).1 = 0
  ∧ (Soft.getMicroseconds Soft.initialState 7).1 = 0 :=
  ⟨(C3_uninitialized_reads_zero.1 ESP32.initialState rfl).1,
   ((C3_uninitialized_reads_zero.2.1 ESP8266.initialState 7) rfl).1,
   ((C3_uninitialized_reads_zero.2.2.1 Soft.initialState 7) rfl).1⟩

/-- Claim C5: `begin()` is idempotent — on an already-initialized state a
second call returns before touching any field, so the state is unchanged;
consequently `begin` after `begin` is always a no-op. -/
theorem C5_begin_idempotent :
    (∀ s : ESP32.State, s.initialized = true → ESP32.begin s = s)
  ∧ (∀ (s : ESP8266.State) (c : Nat), s.initialized = true → ESP8266.begin s c = s)
  ∧ (∀ (s : Soft.State) (c : Nat), s.initialized = true → Soft.begin s c = s)
  ∧ (∀ s : ESP32.State, ESP32.begin (ESP32.begin s) = ESP32.begin s)
  ∧ (∀ (s : ESP8266.State) (c c' : Nat),
      ESP8266.begin (ESP8266.begin s c) c' = ESP8266.begin s c)
  ∧ (∀ (s : Soft.State) (c c' : Nat),
      Soft.begin (Soft.begin s c) c' = Soft.begin s c) := by
  refine ⟨?_, ?_, ?_, ?_, ?_, ?_⟩
  · intro s h; simp [ESP32.begin, h]
  · intro s c h; simp [ESP8266.begin, h]
  · intro s c h; simp [Soft.begin, h]
  · intro s
    by_cases h : s.initialized = true <;> simp [ESP32.begin, h]
  · intro s c c'
    by_cases h : s.initialized = true <;> simp [ESP8266.begin, h]
  · intro s c c'
    by_cases h : s.initialized = true <;> simp [Soft.begin, h]

/-- Witness for C5 at concrete initialized states. -/
theorem C5_begin_idempotent_witness :
    ESP32.begin { initialized := true, time_fct_micros := 42 } =
      { initialized := true, time_fct_micros := 42 }
  ∧ ESP8266.begin
      { initialized := true, overflow_counter := 1, last_micros := 2, total_micros := 3 } 9 =
      { initialized := true, overflow_counter := 1, last_micros := 2, total_micros := 3 }
  ∧ Soft.begin { initialized := true, last_millis := 4, total_millis := 5 } 9 =
      { initialized := true, last_millis := 4, total_millis := 5 } :=
  ⟨C5_begin_idempotent.1 _ rfl, C5_begin_idempotent.2.1 _ 9 rfl,
   C5_begin_idempotent.2.2.1 _ 9 rfl⟩

/-- Claim C6: unit-conversion round trip — for the microsecond value `v`
produced by `getMicroseconds()` on any state and sample,
`getMilliseconds()` is `v / 1000`, `getSeconds()` is `v / 1000000`
(integer division), and `getSecondsPrecise()` is exactly `v / 1000000`
as a rational (the library computes `(double)v / 1000000.0`); the
conversions touch no further state. -/
theorem C6_unit_conversions :
    (∀ s : ESP32.State,
      ESP32.getMilliseconds s = ESP32.getMicroseconds s / 1000 ∧
      ESP32.getSeconds s = ESP32.getMicroseconds s / 1000000 ∧
      ESP32.getSecondsPrecise s = (ESP32.getMicroseconds s : ℚ) / 1000000)
  ∧ (∀ (s : ESP8266.State) (c : Nat),
      (ESP8266.getMilliseconds s c).1 = (ESP8266.getMicroseconds s c).1 / 1000 ∧
      (ESP8266.getSeconds s c).1 = (ESP8266.getMicroseconds s c).1 / 1000000 ∧
      (ESP8266.getSecondsPrecise s c).1 = ((ESP8266.getMicroseconds s c).1 : ℚ) / 1000000 ∧
      (ESP8266.getMilliseconds s c).2 = (ESP8266.getMicroseconds s c).2 ∧
      (ESP8266.getSeconds s c).2 = (ESP8266.getMicroseconds s c).2 ∧
      (ESP8266.getSecondsPrecise s c).2 = (ESP8266.getMicroseconds s c).2)
  ∧ (∀ (s : Soft.State) (c : Nat),
      (Soft.getMilliseconds s c).1 = (Soft.getMicroseconds s c).1 / 1000 ∧
      (Soft.getSeconds s c).1 = (Soft.getMicroseconds s c).1 / 1000000 ∧
      (Soft.getSecondsPrecise s c).1 = ((Soft.getMicroseconds s c).1 : ℚ) / 1000000 ∧
      (Soft.getMilliseconds s c).2 = (Soft.getMicroseconds s c).2 ∧
      (Soft.getSeconds s c).2 = (Soft.getMicroseconds s c).2 ∧
      (Soft.getSecondsPrecise s c).2 = (Soft.getMicroseconds s c).2) := by
  refine ⟨fun _ => ⟨rfl, rfl, rfl⟩,
          fun _ _ => ⟨rfl, rfl, rfl, rfl, rfl, rfl⟩,
          fun _ _ => ⟨rfl, rfl, rfl, rfl, rfl, rfl⟩⟩

/-- Claim C8: the polling backend's `update()` is idempotent-safe under
immediate re-entrancy — a second call observing the same `millis()`
sample computes `delta = 0` and changes nothing, so the whole state (in
particular the accumulated wide total) is unchanged. -/
theorem C8_update_reentrant_idempotent :
    ∀ (s : Soft.State) (c : Nat),
      Soft.update (Soft.update s c) c = Soft.update s c ∧
      (Soft.update (Soft.update s c) c).total_millis = (Soft.update s c).total_millis := by
  intro s c
  obtain ⟨init, last, total⟩ := s
  cases init with
  | false => exact ⟨rfl, rfl⟩
  | true =>
    refine ⟨?_, ?_⟩ <;>
      simp [Soft.update, Soft.updateSoftwareTimer, Soft.delta]

/-- Claim C9: `reset()` re-baselines the counters but leaves
`initialized` — and hence the value of `isInitialized()` — unchanged; on
each backend the full effect is exactly the counter re-baselining. -/
theorem C9_reset_preserves_initialized :
    (∀ s : ESP32.State,
      ESP32.reset s = { s with time_fct_micros := 0 } ∧
      (ESP32.reset s).initialized = s.initialized ∧
      ESP32.isInitialized (ESP32.reset s) = ESP32.isInitialized s)
  ∧ (∀ (s : ESP8266.State) (c : Nat),
      ESP8266.reset s c =
        { s with last_micros := c % U32, total_micros := 0, overflow_counter := 0 } ∧
      (ESP8266.reset s c).initialized = s.initialized ∧
      ESP8266.isInitialized (ESP8266.reset s c) = ESP8266.isInitialized s)
  ∧ (∀ (s : Soft.State) (c : Nat),
      Soft.reset s c = { s with last_millis := c % U32, total_millis := 0 } ∧
      (Soft.reset s c).initialized = s.initialized ∧
      Soft.isInitialized (Soft.reset s c) = Soft.isInitialized s) :=
  ⟨fun _ => ⟨rfl, rfl, rfl⟩, fun _ _ => ⟨rfl, rfl, rfl⟩, fun _ _ => ⟨rfl, rfl, rfl⟩⟩

/-- Claim C4: the polling backend's wrap-aware delta — for an
initialized state, `update()` adds `delta` (computed by the two branch
formulas) to the accumulated wide total and stores the new sample; in
particular the sample sequence `0xFFFFFFF0` then `0x00000005` accumulates
`(0xFFFFFFFF - 0xFFFFFFF0) + 5 + 1 = 21`. -/
theorem C4_polling_wrap_delta :
    (∀ last current : Nat,
      (last ≤ current → Soft.delta last current = current - last) ∧
      (current < last → Soft.delta last current = (UINT32_MAX - last) + current + 1))
  ∧ (∀ (s : Soft.State) (c : Nat), s.initialized = true →
      Soft.update s c =
        { s with
          total_millis := (s.total_millis + Soft.delta s.last_millis (c % U32)) % U64,
          last_millis := c % U32 })
  ∧ Soft.delta 0xFFFFFFF0 0x00000005 = 21
  ∧ (Soft.update
      (Soft.update { initialized := true, last_millis := 0, total_millis := 0 } 0xFFFFFFF0)
      0x00000005).total_millis
    = (Soft.update { initialized := true, last_millis := 0, total_millis := 0 }
        0xFFFFFFF0).total_millis + 21 := by
  refine ⟨?_, ?_, by decide, by decide⟩
  · intro last current
    constructor <;> intro h <;> simp [Soft.delta, h]
  · intro s c h
    simp [Soft.update, Soft.updateSoftwareTimer, h]

/-- Witness for C4 with the wrap hypotheses discharged at the concrete
sample pair of the claim. -/
theorem C4_polling_wrap_delta_witness :
    Soft.delta 0xFFFFFFF0 0x00000005 = (UINT32_MAX - 0xFFFFFFF0) + 0x00000005 + 1
  ∧ Soft.delta 5 7 = 7 - 5
  ∧ Soft.update { initialized := true, last_millis := 3, total_millis := 10 } 8 =
      { initialized := true,
        total_millis := (10 + Soft.delta 3 (8 % U32)) % U64, last_millis := 8 % U32 } :=
  ⟨(C4_polling_wrap_delta.1 0xFFFFFFF0 0x00000005).2 (by decide),
   (C4_polling_wrap_delta.1 5 7).1 (by decide),
   C4_polling_wrap_delta.2.1 { initialized := true, last_millis := 3, total_millis := 10 }
     8 rfl⟩

/-- Claim C7 (counterexample): at total elapsed seconds 90061 the code
does not produce the string `"1 days, 01:01:01"` claimed by the spec —
the format string of `getFormattedString()` spells the day unit `jours`. -/
theorem C7_counterexample :
    getFormattedString 90061 ≠ "1 days, 01:01:01" ∧
    getFormattedString 90061 = "1 jours, 01:01:01" := by
  refine ⟨by decide, by decide⟩

/-- Claim C7 (amended): `getFormattedTime` decomposes the total elapsed
seconds by 86400, 3600 and 60; at 90061 seconds it yields
`days = hours = minutes = seconds = 1` and `getFormattedString()` yields
`"1 jours, 01:01:01"` (the code's day-unit word is `jours`, not `days`);
the day prefix is present exactly when `days > 0`, otherwise the string
is the plain `HH:MM:SS` form. -/
theorem C7_formatting :
    (∀ t : Nat, getFormattedTime t =
      { days := t / 86400, hours := t % 86400 / 3600,
        minutes := t % 86400 % 3600 / 60, seconds := t % 86400 % 3600 % 60 })
  ∧ getFormattedTime 90061 = { days := 1, hours := 1, minutes := 1, seconds := 1 }
  ∧ getFormattedString 90061 = "1 jours, 01:01:01"
  ∧ (∀ t : Nat, 0 < (getFormattedTime t).days →
      getFormattedString t =
        toString (getFormattedTime t).days ++ " jours, " ++
        pad2 (getFormattedTime t).hours ++ ":" ++
        pad2 (getFormattedTime t).minutes ++ ":" ++
        pad2 (getFormattedTime t).seconds)
  ∧ (∀ t : Nat, (getFormattedTime t).days = 0 →
      getFormattedString t =
        pad2 (getFormattedTime t).hours ++ ":" ++
        pad2 (getFormattedTime t).minutes ++ ":" ++
        pad2 (getFormattedTime t).seconds) := by
  refine ⟨fun t => rfl, by decide, by decide, ?_, ?_⟩
  · intro t h
    simp [getFormattedString, h]
  · intro t h
    simp [getFormattedString, h]

/-- Witness for C7 with the day-prefix hypotheses discharged at 90061
and 59 total seconds. -/
theorem C7_formatting_witness :
    getFormattedString 90061 =
      toString (getFormattedTime 90061).days ++ " jours, " ++
      pad2 (getFormattedTime 90061).hours ++ ":" ++
      pad2 (getFormattedTime 90061).minutes ++ ":" ++
      pad2 (getFormattedTime 90061).seconds
  ∧ getFormattedString 59 =
      pad2 (getFormattedTime 59).hours ++ ":" ++
      pad2 (getFormattedTime 59).minutes ++ ":" ++
      pad2 (getFormattedTime 59).seconds :=
  ⟨C7_formatting.2.2.2.1 90061 (by decide),
   C7_formatting.2.2.2.2 59 (by decide)⟩

/-- Claim C1 (failing evaluation): on the ESP8266 (overflow-interrupt)
backend a read immediately after `reset()` is not near zero.  `reset()`
at narrow sample 5000000 zeroes `overflow_counter` and `total_micros` and
stores `last_micros = 5000000`, but the very next `updateTime()` at
sample 5000010 reconstructs `total_micros = (0 << 32) | 5000010`, i.e.
the raw `micros()` value — 5000010, not the ~10 µs actually elapsed —
contradicting the claim, the repository's own test
(`test_reset_function` expects `< 1000`) and the `reset()` doc comment
(the counter reads 0 again after a reset). -/
theorem C1_reset_read_not_near_zero :
    (ESP8266.getMicroseconds
      (ESP8266.reset
        { initialized := true, overflow_counter := 3,
          last_micros := 4000000, total_micros := 12889934592 } 5000000)
      5000010).1 = 5000010
  ∧ ¬ ((ESP8266.getMicroseconds
      (ESP8266.reset
        { initialized := true, overflow_counter := 3,
          last_micros := 4000000, total_micros := 12889934592 } 5000000)
      5000010).1 < 1000) := by
  refine ⟨by decide, by decide⟩

/-- Claim C10: on an uninitialized clock every mainline operation
(`update()` and all the reads) returns before mutating any field, so an
arbitrary sequence of reads and updates is observationally a no-op on
the state, for all three backends. -/
theorem C10_uninitialized_frame :
    (∀ (s : ESP32.State), s.initialized = false →
      ∀ ops : List MainOp, ESP32.runOps s ops = s)
  ∧ (∀ (s : ESP8266.State), s.initialized = false →
      ∀ ops : List MainOp, ESP8266.runOps s ops = s)
  ∧ (∀ (s : Soft.State), s.initialized = false →
      ∀ ops : List MainOp, Soft.runOps s ops = s) := by
  refine ⟨?_, ?_, ?_⟩
  · intro s h ops
    refine foldl_fixed _ _ (fun op => ?_) ops
    cases op <;> rfl
  · intro s h ops
    refine foldl_fixed _ _ (fun op => ?_) ops
    cases op <;>
      simp [ESP8266.runOp, ESP8266.update, ESP8266.updateTime, ESP8266.getMicroseconds,
        ESP8266.getMilliseconds, ESP8266.getSeconds, h]
  · intro s h ops
    refine foldl_fixed _ _ (fun op => ?_) ops
    cases op <;>
      simp [Soft.runOp, Soft.update, Soft.updateSoftwareTimer, Soft.getMicroseconds,
        Soft.getMilliseconds, Soft.getSeconds, h]

/-- Witness for C10 at the start-up states with a concrete operation
sequence. -/
theorem C10_uninitialized_frame_witness :
    ESP32.runOps ESP32.initialState
      [MainOp.update 5, MainOp.readMicros 6, MainOp.readMillis 7] = ESP32.initialState
  ∧ ESP8266.runOps ESP8266.initialState
      [MainOp.update 5, MainOp.readMicros 6, MainOp.readSeconds 7] = ESP8266.initialState
  ∧ Soft.runOps Soft.initialState
      [MainOp.update 5, MainOp.readMicros 6, MainOp.readMillis 7] = Soft.initialState :=
  ⟨C10_uninitialized_frame.1 ESP32.initialState rfl _,
   C10_uninitialized_frame.2.1 ESP8266.initialState rfl _,
   C10_uninitialized_frame.2.2 Soft.initialState rfl _⟩

/-- Claim C2 (counterexample): two successive `getMicroseconds()` reads
of the ESP8266 (overflow-interrupt) backend with no intervening `reset()`
and no intervening overflow interrupt can go backwards.  Starting from
the initialized state with `last_micros = 4000000000` (reached by
`begin()` at sample 0 and a read at sample 4000000000), a read at sample
100 locally detects the wrap (`high_part` incremented, the ISR not yet
serviced) and returns `2^32 + 100`; the next read at sample 200 — ISR
still pending — finds `200 ≥ last_micros` and returns only `200`:
`t2 < t1`, refuting the claimed unconditional monotonicity exactly in
the window the claim singles out. -/
theorem C2_counterexample :
    ((ESP8266.getMicroseconds
      ((ESP8266.getMicroseconds
        ((ESP8266.getMicroseconds (ESP8266.begin ESP8266.initialState 0) 4000000000).2)
        100).2) 200).1)
    <
    ((ESP8266.getMicroseconds
      ((ESP8266.getMicroseconds (ESP8266.begin ESP8266.initialState 0) 4000000000).2)
      100).1) := by decide

/-- Claim C2 (amended): two successive reads with no intervening
`reset()` satisfy `t1 ≤ t2` — unconditionally for the Hardware-Tick
backend (within the 64-bit range of its counter) and for the Polling
backend (while the accumulated microsecond total stays below `2^64`);
for the Overflow-Interrupt backend, provided that whenever the first
read locally detects a wrap (`current < last_micros`) the pending
overflow interrupt is serviced before the second read (and the 32-bit
overflow counter does not itself wrap).  Outside that proviso a read in
the one-wrap staleness window can exceed the following read by up to
`2^32` µs. -/
theorem C2_monotonicity_amended :
    (∀ (s : ESP32.State) (k : Nat), s.initialized = true →
      s.time_fct_micros + k < U64 →
      ESP32.getMicroseconds s ≤ ESP32.getMicroseconds (ESP32.timerISR^[k] s))
  ∧ (∀ (s : ESP8266.State) (k c1 c2 : Nat), s.initialized = true →
      c1 < U32 → c2 < U32 →
      s.overflow_counter + k + 1 < U32 →
      (c1 < s.last_micros → 1 ≤ k) →
      (ESP8266.getMicroseconds s c1).1 ≤
        (ESP8266.getMicroseconds
          (ESP8266.microsOverflowISR^[k] (ESP8266.getMicroseconds s c1).2) c2).1)
  ∧ (∀ (s : Soft.State) (c1 c2 : Nat), s.initialized = true →
      (s.total_millis + Soft.delta s.last_millis (c1 % U32)
        + Soft.delta (c1 % U32) (c2 % U32)) * 1000 < U64 →
      (Soft.getMicroseconds s c1).1 ≤
        (Soft.getMicroseconds (Soft.getMicroseconds s c1).2 c2).1) := by
  have hU32 : U32 = 4294967296 := rfl
  have hU64 : U64 = 18446744073709551616 := rfl
  refine ⟨?_, ?_, ?_⟩
  · intro s k hinit hlt
    rw [timerISR_iterate s k hlt]
    simp [ESP32.getMicroseconds, hinit]
  · intro s k c1 c2 hinit hc1 hc2 hoc hwrap
    simp only [ESP8266.getMicroseconds, hinit, Bool.not_true, Bool.false_eq_true,
      if_false]
    rw [updateTime_eq s c1 hinit hc1]
    rw [microsOverflowISR_iterate _ k (by simp; omega)]
    rw [updateTime_eq _ c2 (by simp [hinit]) hc2]
    simp only [hinit, Bool.not_true, Bool.false_eq_true, if_false]
    rw [hU32] at *
    by_cases hw1 : c1 < s.last_micros <;> by_cases hw2 : c2 < c1 <;>
      simp only [hw1, hw2, if_pos, if_neg, if_true, if_false] <;>
      omega
  · intro s c1 c2 hinit hov
    simp only [Soft.getMicroseconds, hinit, Bool.not_true, Bool.false_eq_true, if_false]
    rw [updateSoftwareTimer_eq s c1 hinit]
    rw [updateSoftwareTimer_eq _ c2 (by simp [hinit])]
    simp only [hinit, Bool.not_true, Bool.false_eq_true, if_false]
    rw [hU64] at hov ⊢
    generalize Soft.delta s.last_millis (c1 % U32) = d1 at *
    generalize Soft.delta (c1 % U32) (c2 % U32) = d2 at *
    have h1 : s.total_millis + d1 < 18446744073709551616 := by omega
    rw [Nat.mod_eq_of_lt h1]
    have h2 : s.total_millis + d1 + d2 < 18446744073709551616 := by omega
    rw [Nat.mod_eq_of_lt h2]
    have h3 : (s.total_millis + d1) * 1000 < 18446744073709551616 := by omega
    rw [Nat.mod_eq_of_lt h3, Nat.mod_eq_of_lt hov]
    omega

/-- Witness for C2 (amended) at concrete states, samples and interrupt
counts. -/
theorem C2_monotonicity_amended_witness :
    ESP32.getMicroseconds { initialized := true, time_fct_micros := 5 } ≤
      ESP32.getMicroseconds (ESP32.timerISR^[3] { initialized := true, time_fct_micros := 5 })
  ∧ (ESP8266.getMicroseconds
      { initialized := true, overflow_counter := 0, last_micros := 0, total_micros := 0 }
      10).1 ≤
    (ESP8266.getMicroseconds
      (ESP8266.microsOverflowISR^[0]
        (ESP8266.getMicroseconds
          { initialized := true, overflow_counter := 0, last_micros := 0, total_micros := 0 }
          10).2) 20).1
  ∧ (Soft.getMicroseconds { initialized := true, last_millis := 0, total_millis := 0 } 1).1 ≤
    (Soft.getMicroseconds
      (Soft.getMicroseconds { initialized := true, last_millis := 0, total_millis := 0 } 1).2
      2).1 :=
  ⟨C2_monotonicity_amended.1 _ 3 rfl (by decide),
   C2_monotonicity_amended.2.1 _ 0 10 20 rfl (by decide) (by decide) (by decide) (by decide),
   C2_monotonicity_amended.2.2 _ 1 2 rfl (by decide)⟩

end PreciseTime
